import Mathlib

/-!
Verification of the RouteX real-time tracking subsystem.

The client side (the `useTrackingSocket` React hook and the tracking
message types) is embedded from the frontend sources.  The server side
(the Django Channels `TrackingConsumer`) is not part of the source tree:
only its documentation is; the definitions for it are modelled from the
specification and are marked as such in their doc comments.
-/

namespace RouteX

/-! Types from `frontend/src/types/tracking.ts` -/

/-- Connection states of the client hook (`ConnectionState` union type). -/
inductive ConnState where
  | disconnected
  | connecting
  | connected
  | error
deriving DecidableEq, Repr

/-- Browser `WebSocket.readyState` values (the environment of the hook). -/
inductive ReadyState where
  | connecting
  | opened
  | closing
  | closed
deriving DecidableEq, Repr

/-- The `DriverLocation` interface: lat, lng, address, optional timestamp. -/
structure DriverLocation where
  lat : ℚ
  lng : ℚ
  address : String
  timestamp : Option String
deriving DecidableEq, Repr

/-- The `DriverLocationMessage` shape: the outbound broadcast a client receives.
All coordinate and address fields sit flat at the top level of the
message, next to `driver_id` and `timestamp`; there is no nested
location object.  (`parcel_id` is the code's name for the spec's
shipment id.) -/
structure DriverLocationMessage where
  driver_id : String
  lat : ℚ
  lng : ℚ
  address : String
  timestamp : String
  parcel_id : Option Nat
deriving DecidableEq, Repr

/-- The `IncomingMessage` union: every message kind a client can receive. -/
inductive IncomingMessage where
  | driver_location (m : DriverLocationMessage)
  | subscribed (parcel_id : Nat)
  | unsubscribed (parcel_id : Nat)
  | tracking_ended (parcel_id : Nat) (message : String)
  | error (message : String)
deriving DecidableEq, Repr

/-- The `LocationUpdateMessage` shape: the message a driver sends to the server.
In `sendLocationUpdate` the `parcel_id` field is always populated, so it
is not optional here. -/
structure LocationUpdateMessage where
  lat : ℚ
  lng : ℚ
  address : String
  parcel_id : Nat
deriving DecidableEq, Repr

/-! The `useTrackingSocket` hook (`src/unnamed/part_005`, lines 559-798)

The hook's mutable refs and state are collected in `SocketState`.
`closePending` models the browser contract that a created socket fires
its `onclose` handler exactly once, possibly after the hook has already
dropped its reference to the socket (`wsRef.current = null`). -/

structure SocketState where
  wsRef : Option ReadyState
  closePending : Bool
  connectionState : ConnState
  reconnectTimeout : Bool
  reconnectAttempts : Nat
  intentionalDisconnect : Bool
  parcelId : Nat
deriving DecidableEq, Repr

def MAX_RECONNECT_ATTEMPTS : Nat := 5

/-- Reconnect delay in milliseconds. -/
def RECONNECT_DELAY : Nat := 3000

/-- Observable outputs of the hook: connection-state notifications
(`onConnectionChange`), error callbacks (`onError`), socket creation,
reconnect scheduling (`setTimeout(connect, RECONNECT_DELAY)`) and
messages sent on the socket. -/
inductive Output where
  | stateChange (s : ConnState)
  | wsCreated
  | scheduleReconnect (delayMs : Nat)
  | errorCb (msg : String)
  | sent (m : LocationUpdateMessage)
deriving DecidableEq, Repr

def Output.isSchedule : Output → Bool
  | .scheduleReconnect _ => true
  | _ => false

def Output.isCreated : Output → Bool
  | .wsCreated => true
  | _ => false

/-- The `connect` function.  Returns immediately when the current socket is OPEN or
CONNECTING.  Otherwise it clears the intentional-disconnect flag, builds
the URL (`getWebSocketUrl` throws when no tokens are in localStorage,
which the `tokensOk` flag models), moves to `connecting` and creates the
socket; the catch branch moves to `error` and reports the thrown
message. -/
def connect (s : SocketState) (tokensOk : Bool) : SocketState × List Output :=
  if s.wsRef = some .opened ∨ s.wsRef = some .connecting then
    (s, [])
  else
    let s1 := { s with intentionalDisconnect := false }
    if tokensOk then
      ({ s1 with connectionState := .connecting, wsRef := some .connecting,
                 closePending := true },
       [.stateChange .connecting, .wsCreated])
    else
      ({ s1 with connectionState := .error },
       [.stateChange .error, .errorCb "No authentication tokens found"])

/-- The `ws.onopen` handler: mark connected and reset the attempt counter.  The
socket's readyState has moved to OPEN. -/
def onOpen (s : SocketState) : SocketState × List Output :=
  ({ s with wsRef := some .opened, connectionState := .connected,
            reconnectAttempts := 0 },
   [.stateChange .connected])

/-- The `ws.onerror` handler: report the error.  The handler itself does not touch
`wsRef`; the environment moves the failed socket to CLOSING (an errored
socket never fires `onopen` afterwards, only `onclose`). -/
def onError (s : SocketState) : SocketState × List Output :=
  ({ s with connectionState := .error,
            wsRef := s.wsRef.map fun _ => ReadyState.closing },
   [.stateChange .error, .errorCb "WebSocket connection error"])

/-- The `ws.onclose` handler: mark disconnected, drop the socket reference, and when
the drop was not intentional and fewer than `MAX_RECONNECT_ATTEMPTS`
attempts were used, bump the counter and schedule `connect` after
`RECONNECT_DELAY`; once the counter has reached the bound, surface the
fatal error instead. -/
def onClose (s : SocketState) : SocketState × List Output :=
  let s1 := { s with connectionState := ConnState.disconnected, wsRef := none,
                     closePending := false }
  if ¬ s.intentionalDisconnect ∧ s.reconnectAttempts < MAX_RECONNECT_ATTEMPTS then
    ({ s1 with reconnectAttempts := s.reconnectAttempts + 1,
               reconnectTimeout := true },
     [.stateChange .disconnected, .scheduleReconnect RECONNECT_DELAY])
  else if s.reconnectAttempts ≥ MAX_RECONNECT_ATTEMPTS then
    (s1, [.stateChange .disconnected,
          .errorCb "Failed to reconnect to tracking server"])
  else
    (s1, [.stateChange .disconnected])

/-- The `disconnect` function: set the intentional flag, cancel a pending reconnect
timer, close and drop the socket (its `onclose` will still fire later,
hence `closePending` is left as is), and mark disconnected. -/
def disconnect (s : SocketState) : SocketState × List Output :=
  let s1 := { s with intentionalDisconnect := true, reconnectTimeout := false }
  let s2 := match s1.wsRef with
    | some _ => { s1 with wsRef := none }
    | none => s1
  ({ s2 with connectionState := .disconnected }, [.stateChange .disconnected])

/-- The `sendLocationUpdate` function.  When the socket is not OPEN it only reports
an error; otherwise it sends one `location_update` message whose
`parcel_id` is `specificParcelId || parcelId` — a JavaScript falsy
check, so a supplied id of `0` falls back to the hook's `parcelId`. -/
def sendLocationUpdate (s : SocketState) (location : DriverLocation)
    (specificParcelId : Option Nat) : SocketState × List Output :=
  if s.wsRef ≠ some .opened then
    (s, [.errorCb "Not connected to tracking server"])
  else
    (s, [.sent { lat := location.lat, lng := location.lng,
                 address := location.address,
                 parcel_id := match specificParcelId with
                   | some p => if p = 0 then s.parcelId else p
                   | none => s.parcelId }])

/-- Handler actions produced by `handleMessage` (console logging is not
observable and is dropped). -/
inductive HandlerAction where
  | setDriverLocation (l : DriverLocation)
  | locationCallback (l : DriverLocation) (driverId : String)
  | callDisconnect
  | errorCallback (msg : String)
deriving DecidableEq, Repr

/-- The `handleMessage` function: dispatch on the incoming message type.  For
`driver_location` the handler builds the `DriverLocation` by reading
`lat`, `lng` and `address` directly from the top level of the message
(`message.timestamp || new Date().toISOString()` is the usual falsy
default, with `now` standing for the current time). -/
def handleMessage (now : String) (msg : IncomingMessage) : List HandlerAction :=
  match msg with
  | .driver_location m =>
      let l : DriverLocation :=
        { lat := m.lat, lng := m.lng, address := m.address,
          timestamp := some (if m.timestamp = "" then now else m.timestamp) }
      [.setDriverLocation l, .locationCallback l m.driver_id]
  | .tracking_ended _ _ => [.callDisconnect]
  | .subscribed _ => []
  | .unsubscribed _ => []
  | .error message => [.errorCallback message]

/-! Event-driven runs of the hook -/

/-- External events driving one logical connection: the two calls the
consumer of the hook can make, the three socket callbacks, and the
expiry of a scheduled reconnect timer. -/
inductive Event where
  | userConnect (tokensOk : Bool)
  | userDisconnect
  | wsOpen
  | wsError
  | wsClose
  | timerFire (tokensOk : Bool)
deriving DecidableEq, Repr

def Event.isUserConnect : Event → Bool
  | .userConnect _ => true
  | _ => false

/-- One step of the controller.  Socket callbacks that cannot occur
(no open handshake for `wsOpen`, no outstanding close handler for
`wsError`/`wsClose`, no pending timer for `timerFire`) are no-ops. -/
def step (s : SocketState) (e : Event) : SocketState × List Output :=
  match e with
  | .userConnect tok => connect s tok
  | .userDisconnect => disconnect s
  | .wsOpen => if s.wsRef = some .connecting then onOpen s else (s, [])
  | .wsError => if s.closePending then onError s else (s, [])
  | .wsClose => if s.closePending then onClose s else (s, [])
  | .timerFire tok =>
      if s.reconnectTimeout then connect { s with reconnectTimeout := false } tok
      else (s, [])

/-- Run a list of events, collecting all outputs in order. -/
def run (s : SocketState) : List Event → SocketState × List Output
  | [] => (s, [])
  | e :: es =>
      let p := step s e
      let q := run p.1 es
      (q.1, p.2 ++ q.2)

/-- Initial hook state: no socket, disconnected, zero attempts. -/
def initState (parcelId : Nat) : SocketState :=
  { wsRef := none, closePending := false, connectionState := .disconnected,
    reconnectTimeout := false, reconnectAttempts := 0,
    intentionalDisconnect := false, parcelId := parcelId }

/-! Invariants of the hook state -/

/-- Consistency between the stored connection state and the socket
reference, maintained by every step. -/
def Inv (s : SocketState) : Prop :=
  (s.connectionState = .connected → s.wsRef = some .opened)
  ∧ (s.connectionState = .connecting → s.wsRef = some .connecting)
  ∧ (s.wsRef = some .connecting → s.connectionState = .connecting)

instance (s : SocketState) : Decidable (Inv s) := by
  unfold Inv; infer_instance

theorem inv_step (s : SocketState) (e : Event) (h : Inv s) : Inv (step s e).1 := by
  obtain ⟨h1, h2, h3⟩ := h
  cases e <;>
    simp only [step, connect, disconnect, onOpen, onError, onClose, Inv] <;>
    (repeat' split) <;>
    simp_all

/-- An event is a call to `connect` (directly or through the timer). -/
def Event.isConnectCall : Event → Bool
  | .userConnect _ => true
  | .timerFire _ => true
  | _ => false

/-- A `connect` call that will fail while establishing the connection
(`getWebSocketUrl` throws: no tokens). -/
def Event.isFailedConnectCall : Event → Bool
  | .userConnect false => true
  | .timerFire false => true
  | _ => false

/-- The connection-state transition relation exactly as the claim words
it: `disconnected → connecting` on initiation, `connecting → connected`
on open, `connected|connecting → disconnected` on a drop or failure,
anything `→ error` on handshake-level failures, plus staying put. -/
def claimedTransition (a b : ConnState) : Prop :=
  a = b
  ∨ (a = .disconnected ∧ b = .connecting)
  ∨ (a = .connecting ∧ b = .connected)
  ∨ ((a = .connected ∨ a = .connecting) ∧ b = .disconnected)
  ∨ b = .error

instance (a b : ConnState) : Decidable (claimedTransition a b) := by
  unfold claimedTransition; infer_instance

/-- The transition relation the code actually follows: the claimed one
extended with the two edges out of `error` (to `connecting` when a
connection is re-initiated, and to `disconnected` when the failed socket
closes or a deliberate disconnect is issued). -/
def amendedTransition (a b : ConnState) : Prop :=
  a = b
  ∨ (b = .connecting ∧ (a = .disconnected ∨ a = .error))
  ∨ (b = .connected ∧ a = .connecting)
  ∨ b = .disconnected
  ∨ b = .error

instance (a b : ConnState) : Decidable (amendedTransition a b) := by
  unfold amendedTransition; infer_instance

/-- After a deliberate disconnect the controller is quiescent: with the
intentional flag set, no pending timer and no socket reference, no run
of socket events and timer expiries (anything but a fresh `connect`
call) ever schedules a reconnect or creates a socket. -/
theorem quiescent_run (evs : List Event) :
    ∀ s : SocketState,
    s.intentionalDisconnect = true → s.reconnectTimeout = false → s.wsRef = none →
    (∀ e ∈ evs, e.isUserConnect = false) →
    (run s evs).2.filter Output.isSchedule = []
    ∧ (run s evs).2.filter Output.isCreated = []
    ∧ (run s evs).1.wsRef = none
    ∧ (run s evs).1.reconnectTimeout = false
    ∧ (run s evs).1.intentionalDisconnect = true := by
  induction evs with
  | nil => intro s hI hT hW _; simp [run, hI, hT, hW]
  | cons e es ih =>
    intro s hI hT hW hevs
    have he : e.isUserConnect = false := hevs e (List.mem_cons_self e es)
    have hes : ∀ e' ∈ es, e'.isUserConnect = false :=
      fun e' h' => hevs e' (List.mem_cons_of_mem e h')
    have hstep : (step s e).2.filter Output.isSchedule = []
        ∧ (step s e).2.filter Output.isCreated = []
        ∧ (step s e).1.intentionalDisconnect = true
        ∧ (step s e).1.reconnectTimeout = false
        ∧ (step s e).1.wsRef = none := by
      cases e with
      | userConnect tok => simp [Event.isUserConnect] at he
      | userDisconnect => simp [step, disconnect, hI, hT, hW, Output.isSchedule,
          Output.isCreated]
      | wsOpen => simp [step, hW, hI, hT, Output.isSchedule, Output.isCreated]
      | wsError =>
        by_cases hc : s.closePending <;>
          simp [step, onError, hc, hI, hT, hW, Output.isSchedule, Output.isCreated]
      | wsClose =>
        by_cases hc : s.closePending <;>
          simp [step, onClose, hc, hI, hT, hW, Output.isSchedule, Output.isCreated] <;>
          split <;>
          simp_all [Output.isSchedule, Output.isCreated]
      | timerFire tok =>
        simp [step, hT, hI, hW, Output.isSchedule, Output.isCreated]
    obtain ⟨hs1, hs2, hs3, hs4, hs5⟩ := hstep
    obtain ⟨g1, g2, g3, g4, g5⟩ := ih (step s e).1 hs3 hs4 hs5 hes
    refine ⟨?_, ?_, ?_, ?_, ?_⟩ <;>
      simp [run, List.filter_append, hs1, hs2, g1, g2, g3, g4, g5]

/-- Claim C4: a deliberate local `disconnect` call cancels any pending
reconnect timer, and afterwards no reconnection attempt ever occurs for
that logical connection — no timer is scheduled and no socket is created
by any subsequent socket event, timer expiry, or further disconnect, as
long as no fresh `connect` call is made. -/
theorem deliberate_disconnect_suppresses_reconnection
    (s : SocketState) (evs : List Event)
    (h : ∀ e ∈ evs, e.isUserConnect = false) :
    (disconnect s).1.reconnectTimeout = false
    ∧ (run (disconnect s).1 evs).2.filter Output.isSchedule = []
    ∧ (run (disconnect s).1 evs).2.filter Output.isCreated = []
    ∧ (run (disconnect s).1 evs).1.wsRef = none
    ∧ (run (disconnect s).1 evs).1.intentionalDisconnect = true := by
  have hd : (disconnect s).1.intentionalDisconnect = true
      ∧ (disconnect s).1.reconnectTimeout = false
      ∧ (disconnect s).1.wsRef = none := by
    unfold disconnect
    cases hw : s.wsRef <;> simp [hw]
  obtain ⟨hd1, hd2, hd3⟩ := hd
  obtain ⟨g1, g2, g3, g4, g5⟩ := quiescent_run evs (disconnect s).1 hd1 hd2 hd3 h
  exact ⟨hd2, g1, g2, g3, g5⟩

/-- A concrete mid-backoff state: a reconnect timer in flight, two
attempts already used. -/
def midBackoffState : SocketState :=
  { wsRef := none, closePending := false, connectionState := .disconnected,
    reconnectTimeout := true, reconnectAttempts := 2,
    intentionalDisconnect := false, parcelId := 2 }

/-- Witness for C4 at the concrete mid-backoff state and a concrete
post-disconnect event run. -/
theorem deliberate_disconnect_suppresses_reconnection_witness :
    (∀ e ∈ ([Event.timerFire true, Event.wsClose, Event.wsError] : List Event),
        e.isUserConnect = false)
    ∧ ((disconnect midBackoffState).1.reconnectTimeout = false
      ∧ (run (disconnect midBackoffState).1
          [Event.timerFire true, Event.wsClose, Event.wsError]).2.filter
            Output.isSchedule = []
      ∧ (run (disconnect midBackoffState).1
          [Event.timerFire true, Event.wsClose, Event.wsError]).2.filter
            Output.isCreated = []
      ∧ (run (disconnect midBackoffState).1
          [Event.timerFire true, Event.wsClose, Event.wsError]).1.wsRef = none
      ∧ (run (disconnect midBackoffState).1
          [Event.timerFire true, Event.wsClose,
           Event.wsError]).1.intentionalDisconnect = true) :=
  ⟨by decide,
   deliberate_disconnect_suppresses_reconnection _ _ (by decide)⟩

/-- A concrete established connection (hook configured for parcel 3). -/
def connectedState : SocketState :=
  { wsRef := some .opened, closePending := true,
    connectionState := .connected, reconnectTimeout := false,
    reconnectAttempts := 0, intentionalDisconnect := false, parcelId := 3 }

/-- A concrete established connection whose hook is configured for
parcel 7. -/
def openState7 : SocketState :=
  { wsRef := some .opened, closePending := true,
    connectionState := .connected, reconnectTimeout := false,
    reconnectAttempts := 0, intentionalDisconnect := false, parcelId := 7 }

/-- A concrete location sample used by witnesses. -/
def sampleLoc : DriverLocation :=
  { lat := 28, lng := 77, address := "New Delhi", timestamp := none }

/-- Claim C9: calling `connect` while the underlying socket is OPEN or
CONNECTING is a complete no-op — the state (including the attempt
counter and the intentional-disconnect flag) is unchanged and there are
no outputs, so no second socket is created. -/
theorem connect_noop_on_active_socket (s : SocketState) (tok : Bool)
    (h : s.wsRef = some .opened ∨ s.wsRef = some .connecting) :
    connect s tok = (s, []) := by
  unfold connect
  rw [if_pos h]

/-- Witness for C9 at a concrete connected state. -/
theorem connect_noop_on_active_socket_witness :
    (connectedState.wsRef = some ReadyState.opened
      ∨ connectedState.wsRef = some ReadyState.connecting)
    ∧ connect connectedState true = (connectedState, []) :=
  ⟨by decide, connect_noop_on_active_socket connectedState true (by decide)⟩

/-- Claim C10 (amended): with the socket not OPEN, `sendLocationUpdate`
only invokes the error callback and sends nothing; with it OPEN, exactly
one `location_update` message is sent whose `parcel_id` is the supplied
id when that id is given and nonzero, and the hook's configured
`parcelId` when no id is supplied or the supplied id is `0` (the
JavaScript `specificParcelId || parcelId` falsy check). -/
theorem sendLocationUpdate_spec (s : SocketState) (loc : DriverLocation)
    (specific : Option Nat) :
    (s.wsRef ≠ some .opened →
      sendLocationUpdate s loc specific
        = (s, [.errorCb "Not connected to tracking server"]))
    ∧ (s.wsRef = some .opened →
        ∃ m : LocationUpdateMessage,
          sendLocationUpdate s loc specific = (s, [.sent m])
          ∧ m.lat = loc.lat ∧ m.lng = loc.lng ∧ m.address = loc.address
          ∧ (∀ p, specific = some p → p ≠ 0 → m.parcel_id = p)
          ∧ ((specific = none ∨ specific = some 0) →
              m.parcel_id = s.parcelId)) := by
  constructor
  · intro h
    unfold sendLocationUpdate
    rw [if_pos h]
  · intro h
    unfold sendLocationUpdate
    rw [if_neg (fun hc => hc h)]
    cases specific with
    | none =>
      refine ⟨_, rfl, rfl, rfl, rfl, ?_, ?_⟩
      · intro p hp; exact absurd hp (by simp)
      · intro _; rfl
    | some p =>
      by_cases hp : p = 0
      · subst hp
        refine ⟨_, rfl, rfl, rfl, rfl, ?_, ?_⟩
        · intro q hq hq0
          exact absurd (Option.some.inj hq).symm hq0
        · intro _; simp
      · refine ⟨_, rfl, rfl, rfl, rfl, ?_, ?_⟩
        · intro q hq hq0
          obtain rfl : p = q := Option.some.inj hq
          simp [hp]
        · intro hcase
          rcases hcase with hcase | hcase
          · exact absurd hcase (by simp)
          · exact absurd (Option.some.inj hcase) hp

/-- Witness for C10 at a concrete open state with an explicit nonzero
parcel id. -/
theorem sendLocationUpdate_spec_witness :
    connectedState.wsRef = some ReadyState.opened
    ∧ ∃ m : LocationUpdateMessage,
        sendLocationUpdate connectedState sampleLoc (some 9)
          = (connectedState, [.sent m])
        ∧ m.lat = sampleLoc.lat ∧ m.lng = sampleLoc.lng
        ∧ m.address = sampleLoc.address
        ∧ (∀ p, (some 9 : Option Nat) = some p → p ≠ 0 → m.parcel_id = p)
        ∧ (((some 9 : Option Nat) = none ∨ (some 9 : Option Nat) = some 0) →
            m.parcel_id = connectedState.parcelId) :=
  ⟨by decide,
   (sendLocationUpdate_spec connectedState sampleLoc (some 9)).2 (by decide)⟩

/-- Counterexample to C10 as stated: with the socket OPEN and an
explicitly supplied parcel id of `0`, the sent message carries the
hook's configured `parcelId` (7), not the supplied `0`. -/
theorem sendLocationUpdate_parcel_id_zero_counterexample :
    (sendLocationUpdate openState7 sampleLoc (some 0)).2
      = [Output.sent { lat := sampleLoc.lat, lng := sampleLoc.lng,
                       address := sampleLoc.address, parcel_id := 7 }]
    ∧ ¬ (∀ m : LocationUpdateMessage,
          (sendLocationUpdate openState7 sampleLoc (some 0)).2
              = [Output.sent m] →
            m.parcel_id = 0) := by
  constructor
  · decide
  · intro hall
    have := hall { lat := sampleLoc.lat, lng := sampleLoc.lng,
                   address := sampleLoc.address, parcel_id := 7 } (by decide)
    simp at this

/-- Claim C3: a `driver_location` message is consumed by reading `lat`,
`lng` and `address` directly from the top level of the (flat-shaped)
message; the resulting `DriverLocation` handed to the caller carries
exactly those top-level values and the sender's `driver_id`. -/
theorem driver_location_flat_fields_consumed (now : String)
    (m : DriverLocationMessage) :
    ∃ l : DriverLocation,
      handleMessage now (.driver_location m)
        = [.setDriverLocation l, .locationCallback l m.driver_id]
      ∧ l.lat = m.lat ∧ l.lng = m.lng ∧ l.address = m.address :=
  ⟨_, rfl, rfl, rfl, rfl⟩

/-- Counterexample to C8 as stated: a failed connection attempt (no
tokens, so establishing the connection throws) puts the controller in
`error`; a subsequent deliberate disconnect moves it to `disconnected` —
an `error → disconnected` transition that the claimed state machine does
not contain. -/
theorem connection_state_machine_counterexample :
    (step (initState 1) (.userConnect false)).1.connectionState
        = ConnState.error
    ∧ (step (step (initState 1) (.userConnect false)).1
          .userDisconnect).1.connectionState = ConnState.disconnected
    ∧ ¬ claimedTransition ConnState.error ConnState.disconnected := by
  decide

/-- Claim C8 (amended): under the socket/state consistency invariant,
every step moves the connection state along the claimed machine extended
with the two edges out of `error` (`error → connecting` on
re-initiation, `error → disconnected` on socket close or deliberate
disconnect); moreover the state becomes `connecting` only through a
`connect` call, `connected` only through a successful open,
`error` only through a socket error or a failed `connect`, and
`disconnected` only through a socket close or a deliberate disconnect;
the invariant is preserved and the state value is always one of the four
enumerated values. -/
theorem connection_state_machine_amended (s : SocketState) (e : Event)
    (h : Inv s) :
    amendedTransition s.connectionState (step s e).1.connectionState
    ∧ ((step s e).1.connectionState = .connecting →
        s.connectionState = .connecting ∨ e.isConnectCall = true)
    ∧ ((step s e).1.connectionState = .connected →
        s.connectionState = .connected ∨ e = .wsOpen)
    ∧ ((step s e).1.connectionState = .error →
        s.connectionState = .error ∨ e = .wsError
          ∨ e.isFailedConnectCall = true)
    ∧ ((step s e).1.connectionState = .disconnected →
        s.connectionState = .disconnected ∨ e = .wsClose
          ∨ e = .userDisconnect)
    ∧ Inv (step s e).1
    ∧ (∀ c : ConnState, c = .disconnected ∨ c = .connecting
        ∨ c = .connected ∨ c = .error) := by
  obtain ⟨h1, h2, h3⟩ := h
  refine ⟨?_, ?_, ?_, ?_, ?_, inv_step s e ⟨h1, h2, h3⟩, fun c => by
    cases c <;> simp⟩ <;>
  · cases e <;>
      simp only [step, connect, disconnect, onOpen, onError, onClose,
        amendedTransition, Event.isConnectCall, Event.isFailedConnectCall] <;>
      (repeat' split) <;>
      simp_all <;>
      cases hc : s.connectionState <;> simp_all

/-- Witness for C8 at a concrete state and event. -/
theorem connection_state_machine_amended_witness :
    Inv (initState 1)
    ∧ (amendedTransition (initState 1).connectionState
          (step (initState 1) (.userConnect true)).1.connectionState
      ∧ ((step (initState 1) (.userConnect true)).1.connectionState
            = .connecting →
          (initState 1).connectionState = .connecting
            ∨ (Event.userConnect true).isConnectCall = true)
      ∧ ((step (initState 1) (.userConnect true)).1.connectionState
            = .connected →
          (initState 1).connectionState = .connected
            ∨ Event.userConnect true = .wsOpen)
      ∧ ((step (initState 1) (.userConnect true)).1.connectionState
            = .error →
          (initState 1).connectionState = .error
            ∨ Event.userConnect true = .wsError
            ∨ (Event.userConnect true).isFailedConnectCall = true)
      ∧ ((step (initState 1) (.userConnect true)).1.connectionState
            = .disconnected →
          (initState 1).connectionState = .disconnected
            ∨ Event.userConnect true = .wsClose
            ∨ Event.userConnect true = .userDisconnect)
      ∧ Inv (step (initState 1) (.userConnect true)).1
      ∧ (∀ c : ConnState, c = .disconnected ∨ c = .connecting
          ∨ c = .connected ∨ c = .error)) :=
  ⟨by decide,
   connection_state_machine_amended (initState 1) (.userConnect true)
     (by decide)⟩

/-- The canonical consecutive-drop run: connect, open, then the
connection drops and each of the five scheduled reconnection attempts
drops again before opening. -/
def consecutiveDropTrace : List Event :=
  [.userConnect true, .wsOpen, .wsClose, .timerFire true, .wsClose,
   .timerFire true, .wsClose, .timerFire true, .wsClose, .timerFire true,
   .wsClose, .timerFire true, .wsClose]

/-- Claim C1: on the canonical run where the established connection
drops and every one of the reconnection attempts drops again, exactly
`MAX_RECONNECT_ATTEMPTS = 5` reconnection attempts are scheduled, each
after the fixed `RECONNECT_DELAY = 3000` ms delay, exactly 6 sockets are
ever created (the initial connection plus the 5 retries), the fatal
notification is surfaced to the caller, and the controller ends in a
terminal `disconnected` state with nothing pending, from which a further
timer expiry does nothing.  In general the attempt counter never exceeds
the bound, and a drop schedules a reconnect exactly when the drop is
unexpected and the bound is not yet reached. -/
theorem reconnect_bounded_five_attempts_then_fatal :
    ((run (initState 1) consecutiveDropTrace).2.filter Output.isSchedule
        = List.replicate 5 (.scheduleReconnect RECONNECT_DELAY))
    ∧ RECONNECT_DELAY = 3000
    ∧ MAX_RECONNECT_ATTEMPTS = 5
    ∧ ((run (initState 1) consecutiveDropTrace).2.filter
          Output.isCreated).length = 6
    ∧ Output.errorCb "Failed to reconnect to tracking server"
        ∈ (run (initState 1) consecutiveDropTrace).2
    ∧ (run (initState 1) consecutiveDropTrace).1.connectionState
        = .disconnected
    ∧ (run (initState 1) consecutiveDropTrace).1.reconnectTimeout = false
    ∧ (run (initState 1) consecutiveDropTrace).1.wsRef = none
    ∧ (run (initState 1) consecutiveDropTrace).1.closePending = false
    ∧ (run (initState 1) consecutiveDropTrace).1.reconnectAttempts
        = MAX_RECONNECT_ATTEMPTS
    ∧ step (run (initState 1) consecutiveDropTrace).1 (.timerFire true)
        = ((run (initState 1) consecutiveDropTrace).1, [])
    ∧ (∀ s : SocketState, ∀ e : Event,
        (step s e).1.reconnectAttempts
          ≤ max s.reconnectAttempts MAX_RECONNECT_ATTEMPTS)
    ∧ (∀ s : SocketState,
        Output.scheduleReconnect RECONNECT_DELAY ∈ (step s .wsClose).2
          ↔ s.closePending = true ∧ s.intentionalDisconnect = false
            ∧ s.reconnectAttempts < MAX_RECONNECT_ATTEMPTS) := by
  refine ⟨by decide, by decide, by decide, by decide, by decide, by decide,
    by decide, by decide, by decide, by decide, by decide, ?_, ?_⟩
  · intro s e
    cases e <;>
      simp only [step, connect, disconnect, onOpen, onError, onClose] <;>
      (repeat' split) <;>
      simp_all <;>
      omega
  · intro s
    by_cases hc : s.closePending <;>
      simp only [step, onClose, hc, if_true, if_false] <;>
      (repeat' split) <;>
      simp_all [MAX_RECONNECT_ATTEMPTS] <;>
      cases hi : s.intentionalDisconnect <;>
      simp_all <;>
      omega

/-! Persistence throttler (server side)

Modelled from the spec: the server's `backend/track_driver/consumers.py`
is not in the source tree; only its documentation is.  The Persistence
Throttler (spec section 4.5, and the docs: locations are saved to the
database every 5th update while every update is broadcast) keeps one
counter per (session, shipment) pair; the definitions below model the
stream of one such pair. -/

/-- Modelled from the spec: the fixed persistence period N (reference
value 5). -/
def persistEveryN : Nat := 5

/-- Modelled from the spec: the per-(session, shipment) sample counter
of the Persistence Throttler. -/
structure ThrottleCounter where
  counter : Nat
deriving DecidableEq, Repr

/-- Effects of accepting one sample: the broadcast to live observers
and, for every Nth sample, the durable write. -/
inductive EngineEffect where
  | broadcast
  | persist
deriving DecidableEq, Repr

/-- Modelled from the spec: one accepted sample is always broadcast; the
counter is incremented and on reaching N it is reset to zero and the
sample is written to durable storage. -/
def acceptSample (st : ThrottleCounter) : ThrottleCounter × List EngineEffect :=
  let c := st.counter + 1
  if c = persistEveryN then (⟨0⟩, [.broadcast, .persist])
  else (⟨c⟩, [.broadcast])

/-- The per-sample effect lists of a stream of `n` accepted samples
starting from counter state `st`. -/
def streamFrom (st : ThrottleCounter) : Nat → List (List EngineEffect)
  | 0 => []
  | n + 1 =>
      let p := acceptSample st
      p.2 :: streamFrom p.1 n

/-- The per-sample effect lists of a stream of `n` accepted samples of
one (session, shipment) pair, starting from a fresh counter. -/
def streamEffects (n : Nat) : List (List EngineEffect) := streamFrom ⟨0⟩ n

theorem streamFrom_length (m : Nat) :
    ∀ st : ThrottleCounter, (streamFrom st m).length = m := by
  induction m with
  | zero => intro st; rfl
  | succ m ih => intro st; simp [streamFrom, ih]

theorem streamFrom_getElem (n : Nat) :
    ∀ c k : Nat, c < persistEveryN → k < n →
    (streamFrom ⟨c⟩ n)[k]? =
      some (if (c + k + 1) % persistEveryN = 0 then
              [EngineEffect.broadcast, EngineEffect.persist]
            else [EngineEffect.broadcast]) := by
  induction n with
  | zero => intro c k _ hk; omega
  | succ n ih =>
    intro c k hc hk
    by_cases h5 : c + 1 = persistEveryN
    · cases k with
      | zero =>
        have hmod : (c + 0 + 1) % persistEveryN = 0 := by
          simp only [persistEveryN] at h5 ⊢; omega
        simp [streamFrom, acceptSample, h5, hmod]
      | succ k =>
        have hk' : k < n := by omega
        have hrec := ih 0 k (by simp [persistEveryN]) hk'
        have hmod : (0 + k + 1) % persistEveryN
            = (c + (k + 1) + 1) % persistEveryN := by
          simp only [persistEveryN] at h5 ⊢; omega
        have ha : acceptSample ⟨c⟩
            = (⟨0⟩, [EngineEffect.broadcast, EngineEffect.persist]) := by
          simp [acceptSample, h5]
        simp only [streamFrom, ha, List.getElem?_cons_succ]
        rw [hrec, hmod]
    · cases k with
      | zero =>
        have hmod : ¬ (c + 0 + 1) % persistEveryN = 0 := by
          simp only [persistEveryN] at hc h5 ⊢; omega
        simp [streamFrom, acceptSample, h5, hmod]
      | succ k =>
        have hc' : c + 1 < persistEveryN := by
          simp only [persistEveryN] at hc h5 ⊢; omega
        have hk' : k < n := by omega
        have hrec := ih (c + 1) k hc' hk'
        have hmod : (c + 1 + k + 1) % persistEveryN
            = (c + (k + 1) + 1) % persistEveryN := by
          simp only [persistEveryN]; omega
        have ha : acceptSample ⟨c⟩ = (⟨c + 1⟩, [EngineEffect.broadcast]) := by
          simp [acceptSample, h5]
        simp only [streamFrom, ha, List.getElem?_cons_succ]
        rw [hrec, hmod]

/-- Claim C2: in a stream of `n` accepted samples of one (session,
shipment) pair, every sample is broadcast, and exactly the samples in
positions 5, 10, 15, ... (1-based) are written to durable storage: the
`k`-th sample (0-based) persists iff `(k+1) % 5 = 0`. -/
theorem persist_every_fifth_broadcast_always (n k : Nat) (hk : k < n) :
    (streamEffects n).length = n
    ∧ (streamEffects n)[k]? =
        some (if (k + 1) % persistEveryN = 0 then
                [EngineEffect.broadcast, EngineEffect.persist]
              else [EngineEffect.broadcast])
    ∧ EngineEffect.broadcast ∈ ((streamEffects n)[k]?.getD [])
    ∧ (EngineEffect.persist ∈ ((streamEffects n)[k]?.getD [])
        ↔ (k + 1) % persistEveryN = 0) := by
  have hget := streamFrom_getElem n 0 k (by simp [persistEveryN]) hk
  have hz : 0 + k + 1 = k + 1 := by omega
  rw [hz] at hget
  have hlen := streamFrom_length n (⟨0⟩ : ThrottleCounter)
  refine ⟨hlen, hget, ?_, ?_⟩
  · rw [show streamEffects n = streamFrom ⟨0⟩ n from rfl, hget]
    by_cases hmod : (k + 1) % persistEveryN = 0 <;> simp [hmod]
  · rw [show streamEffects n = streamFrom ⟨0⟩ n from rfl, hget]
    by_cases hmod : (k + 1) % persistEveryN = 0 <;> simp [hmod]

/-- Witness for C2: the 5th sample (index 4) of a 7-sample stream is
persisted together with its broadcast. -/
theorem persist_every_fifth_broadcast_always_witness :
    4 < 7
    ∧ ((streamEffects 7).length = 7
      ∧ (streamEffects 7)[4]? =
          some (if (4 + 1) % persistEveryN = 0 then
                  [EngineEffect.broadcast, EngineEffect.persist]
                else [EngineEffect.broadcast])
      ∧ EngineEffect.broadcast ∈ ((streamEffects 7)[4]?.getD [])
      ∧ (EngineEffect.persist ∈ ((streamEffects 7)[4]?.getD [])
          ↔ (4 + 1) % persistEveryN = 0)) :=
  ⟨by decide, persist_every_fifth_broadcast_always 7 4 (by decide)⟩

/-! Location Broadcast Engine Publish (server side)

Modelled from the spec: `consumers.py` is not in the source tree.
`Publish(session, sample)` follows the numbered steps of spec section
4.4: first the coordinate-range check (reason `invalid_coordinates`,
the spec's `InvalidPayload` class: the message alone is rejected, an
`error` outbound message is emitted and the connection stays open), then
the Permission Resolver check (reason `unauthorized`, the spec's
`AuthorizationDenied` class), then the broadcast and the persistence
request. -/

/-- Modelled from the spec: actor roles (spec section 3). -/
inductive Role where
  | courier
  | observer
  | administrator
deriving DecidableEq, Repr

/-- Modelled from the spec: the Permission Resolver policy table (spec
section 4.2) — only a courier currently assigned to the shipment may
publish; observers and administrators never may. -/
def canPublish (r : Role) (assignedToShipment : Bool) : Bool :=
  match r with
  | .courier => assignedToShipment
  | .observer => false
  | .administrator => false

/-- Modelled from the spec: an inbound location sample. -/
structure LocationSample where
  lat : ℚ
  lng : ℚ
  address : String
  shipmentId : Nat
deriving DecidableEq, Repr

/-- Modelled from the spec: latitude in [-90, 90], longitude in
[-180, 180]. -/
def validCoordinates (s : LocationSample) : Bool :=
  decide (-90 ≤ s.lat) && decide (s.lat ≤ 90)
    && decide (-180 ≤ s.lng) && decide (s.lng ≤ 180)

/-- Rejection reasons of `Publish` (spec section 4.4); `unauthorized`
is the spec's `AuthorizationDenied` error class. -/
inductive RejectReason where
  | invalid_coordinates
  | unauthorized
deriving DecidableEq, Repr

/-- Result of a `Publish` call. -/
inductive PublishResult where
  | ok
  | rejected (reason : RejectReason)
deriving DecidableEq, Repr

/-- Server-side effects of a `Publish` call. -/
inductive ServerEffect where
  | errorMessage (msg : String)
  | broadcastDriverLocation (sample : LocationSample)
  | requestPersistence (sample : LocationSample)
deriving DecidableEq, Repr

/-- Outcome of a `Publish` call: result, effects, and whether the
connection stays open. -/
structure PublishOutcome where
  result : PublishResult
  effects : List ServerEffect
  connectionStaysOpen : Bool
deriving DecidableEq, Repr

/-- Modelled from the spec: `Publish(session, sample)` (spec section
4.4, steps 1-4, for one target shipment). -/
def publish (role : Role) (assignedToShipment : Bool)
    (sample : LocationSample) : PublishOutcome :=
  if !validCoordinates sample then
    { result := .rejected .invalid_coordinates,
      effects := [.errorMessage "invalid_coordinates"],
      connectionStaysOpen := true }
  else if !canPublish role assignedToShipment then
    { result := .rejected .unauthorized,
      effects := [.errorMessage "unauthorized"],
      connectionStaysOpen := true }
  else
    { result := .ok,
      effects := [.broadcastDriverLocation sample,
                  .requestPersistence sample],
      connectionStaysOpen := true }

/-- A concrete in-range sample. -/
def inRangeSample : LocationSample :=
  { lat := 28, lng := 77, address := "New Delhi", shipmentId := 1 }

/-- A concrete sample with an out-of-range latitude. -/
def outOfRangeSample : LocationSample :=
  { lat := 100, lng := 77, address := "nowhere", shipmentId := 1 }

/-- Claim C5 (amended): a `Publish` call from an observer session never
succeeds and never broadcasts, whatever the payload; it is rejected with
`unauthorized` (the `AuthorizationDenied` class) whenever the payload's
coordinates are in range, and with `invalid_coordinates` otherwise. -/
theorem observer_publish_never_succeeds (assigned : Bool)
    (sample : LocationSample) :
    (publish .observer assigned sample).result ≠ .ok
    ∧ (∀ s' : LocationSample,
        ServerEffect.broadcastDriverLocation s'
          ∉ (publish .observer assigned sample).effects)
    ∧ (validCoordinates sample = true →
        (publish .observer assigned sample).result
          = .rejected .unauthorized) := by
  by_cases hv : validCoordinates sample <;>
    simp [publish, hv, canPublish]

/-- Witness for C5 at a concrete in-range payload. -/
theorem observer_publish_never_succeeds_witness :
    validCoordinates inRangeSample = true
    ∧ ((publish .observer true inRangeSample).result ≠ .ok
      ∧ (∀ s' : LocationSample,
          ServerEffect.broadcastDriverLocation s'
            ∉ (publish .observer true inRangeSample).effects)
      ∧ (validCoordinates inRangeSample = true →
          (publish .observer true inRangeSample).result
            = .rejected .unauthorized)) :=
  ⟨by decide, observer_publish_never_succeeds true inRangeSample⟩

/-- Counterexample to C5 as stated: an observer sending an out-of-range
payload is rejected with `invalid_coordinates`, not with the
`AuthorizationDenied` class — so "always yields AuthorizationDenied
regardless of payload" fails (the call still never succeeds). -/
theorem observer_publish_counterexample :
    (publish .observer true outOfRangeSample).result
        = .rejected .invalid_coordinates
    ∧ (publish .observer true outOfRangeSample).result
        ≠ .rejected .unauthorized := by
  decide

/-- Claim C7: a sample whose latitude is outside [-90, 90] or whose
longitude is outside [-180, 180] is rejected with
`invalid_coordinates` for every role; only an `error` outbound message
is emitted, the connection stays open, and nothing is broadcast or
persisted. -/
theorem invalid_coordinates_rejected (role : Role) (assigned : Bool)
    (sample : LocationSample)
    (h : sample.lat < -90 ∨ 90 < sample.lat
      ∨ sample.lng < -180 ∨ 180 < sample.lng) :
    (publish role assigned sample).result = .rejected .invalid_coordinates
    ∧ (publish role assigned sample).effects
        = [.errorMessage "invalid_coordinates"]
    ∧ (publish role assigned sample).connectionStaysOpen = true
    ∧ (∀ s' : LocationSample,
        ServerEffect.broadcastDriverLocation s'
            ∉ (publish role assigned sample).effects
        ∧ ServerEffect.requestPersistence s'
            ∉ (publish role assigned sample).effects) := by
  have hv : validCoordinates sample = false := by
    simp only [validCoordinates, Bool.and_eq_false_iff, decide_eq_false_iff_not,
      not_le]
    rcases h with h | h | h | h
    · exact Or.inl (Or.inl (Or.inl h))
    · exact Or.inl (Or.inl (Or.inr h))
    · exact Or.inl (Or.inr h)
    · exact Or.inr h
  simp [publish, hv]

/-- Witness for C7 at a concrete out-of-range sample. -/
theorem invalid_coordinates_rejected_witness :
    (outOfRangeSample.lat < -90 ∨ 90 < outOfRangeSample.lat
      ∨ outOfRangeSample.lng < -180 ∨ 180 < outOfRangeSample.lng)
    ∧ ((publish .courier true outOfRangeSample).result
          = .rejected .invalid_coordinates
      ∧ (publish .courier true outOfRangeSample).effects
          = [.errorMessage "invalid_coordinates"]
      ∧ (publish .courier true outOfRangeSample).connectionStaysOpen = true
      ∧ (∀ s' : LocationSample,
          ServerEffect.broadcastDriverLocation s'
              ∉ (publish .courier true outOfRangeSample).effects
          ∧ ServerEffect.requestPersistence s'
              ∉ (publish .courier true outOfRangeSample).effects)) :=
  ⟨by decide,
   invalid_coordinates_rejected .courier true outOfRangeSample (by decide)⟩

/-! Lifecycle Controller (server side)

Modelled from the spec: `consumers.py` is not in the source tree.  On a
shipment's transition into a terminal state the Lifecycle Controller
(spec section 4.6) broadcasts one `tracking_ended` message to the
shipment's group, closes every session whose only remaining
subscription was this shipment, and deallocates the TrackingGroup; a
second terminal event for the same shipment finds no group and does
nothing. -/

/-- A session as the Lifecycle Controller sees it: its id and the
shipment ids it is subscribed to. -/
structure SessionRec where
  sid : Nat
  subs : List Nat
deriving DecidableEq, Repr

/-- The registry state the Lifecycle Controller acts on: tracking groups
(shipment id to member session ids), live sessions, and the ids of
sessions that have been closed. -/
structure LifecycleState where
  groups : List (Nat × List Nat)
  sessions : List SessionRec
  closedSessions : List Nat
deriving DecidableEq, Repr

/-- One `tracking_ended` message addressed to one session. -/
structure TrackingEnded where
  sid : Nat
  shipmentId : Nat
deriving DecidableEq, Repr

/-- Modelled from the spec: handling one terminal-state event for
shipment `sh` (spec section 4.6 steps 1-3). -/
def onTerminalEvent (st : LifecycleState) (sh : Nat) :
    LifecycleState × List TrackingEnded :=
  match st.groups.lookup sh with
  | none => (st, [])
  | some members =>
      let msgs := members.map fun sid =>
        ({ sid := sid, shipmentId := sh } : TrackingEnded)
      let toClose : List Nat := (st.sessions.filter fun r =>
        decide (r.sid ∈ members) && r.subs.all fun x => x == sh).map
          fun r => r.sid
      let sessions1 : List SessionRec := (st.sessions.filter fun r =>
        !(decide (r.sid ∈ toClose))).map
          fun r => { r with subs := r.subs.filter fun x => x != sh }
      ({ groups := st.groups.filter fun g => g.1 != sh,
         sessions := sessions1,
         closedSessions := st.closedSessions ++ toClose }, msgs)

theorem lookup_filter_ne_none (sh : Nat) (l : List (Nat × List Nat)) :
    (l.filter fun g => g.1 != sh).lookup sh = none := by
  induction l with
  | nil => rfl
  | cons p l ih =>
    obtain ⟨k, v⟩ := p
    by_cases h : k = sh
    · simpa [List.filter_cons, h] using ih
    · have hk : (sh == k) = false := by
        simp [Ne.symm h]
      simp [List.filter_cons, h, List.lookup, hk, ih]

/-- Claim C6: on a terminal event for shipment `sh` whose group holds
the (distinct) members `members`, every member receives exactly one
`tracking_ended` message, every session subscribed only to `sh` is
closed, and a second terminal event for `sh` changes nothing and emits
no message. -/
theorem terminal_event_once_and_idempotent (st : LifecycleState) (sh : Nat)
    (members : List Nat) (hm : st.groups.lookup sh = some members)
    (hnd : members.Nodup) :
    (∀ sid ∈ members,
        (onTerminalEvent st sh).2.count
          ({ sid := sid, shipmentId := sh } : TrackingEnded) = 1)
    ∧ (∀ r ∈ st.sessions, r.sid ∈ members →
        (r.subs.all fun x => x == sh) = true →
        r.sid ∈ (onTerminalEvent st sh).1.closedSessions)
    ∧ onTerminalEvent (onTerminalEvent st sh).1 sh
        = ((onTerminalEvent st sh).1, []) := by
  have hinj : Function.Injective fun sid =>
      ({ sid := sid, shipmentId := sh } : TrackingEnded) := by
    intro a b hab
    simpa using congrArg TrackingEnded.sid hab
  refine ⟨?_, ?_, ?_⟩
  · intro sid hsid
    simp only [onTerminalEvent, hm]
    rw [List.count_map_of_injective members _ hinj sid]
    exact List.count_eq_one_of_mem hnd hsid
  · intro r hr hrm hronly
    simp only [onTerminalEvent, hm, List.mem_append]
    right
    refine List.mem_map.mpr ⟨r, ?_, rfl⟩
    refine List.mem_filter.mpr ⟨hr, ?_⟩
    simp [hrm, hronly]
  · have hnone : ((onTerminalEvent st sh).1.groups).lookup sh = none := by
      simp only [onTerminalEvent, hm]
      exact lookup_filter_ne_none sh st.groups
    generalize hgen : (onTerminalEvent st sh).1 = st1 at hnone ⊢
    unfold onTerminalEvent
    rw [hnone]

/-- A concrete registry: shipment 1 tracked by sessions 10 (subscribed
only to 1) and 11 (also subscribed to shipment 2). -/
def demoLifecycleState : LifecycleState :=
  { groups := [(1, [10, 11]), (2, [11])],
    sessions := [{ sid := 10, subs := [1] }, { sid := 11, subs := [1, 2] }],
    closedSessions := [] }

/-- Witness for C6 on the concrete registry. -/
theorem terminal_event_once_and_idempotent_witness :
    demoLifecycleState.groups.lookup 1 = some [10, 11]
    ∧ ([10, 11] : List Nat).Nodup
    ∧ ((∀ sid ∈ ([10, 11] : List Nat),
        (onTerminalEvent demoLifecycleState 1).2.count
          ({ sid := sid, shipmentId := 1 } : TrackingEnded) = 1)
      ∧ (∀ r ∈ demoLifecycleState.sessions, r.sid ∈ ([10, 11] : List Nat) →
          (r.subs.all fun x => x == 1) = true →
          r.sid ∈ (onTerminalEvent demoLifecycleState 1).1.closedSessions)
      ∧ onTerminalEvent (onTerminalEvent demoLifecycleState 1).1 1
          = ((onTerminalEvent demoLifecycleState 1).1, [])) :=
  ⟨by decide, by decide,
   terminal_event_once_and_idempotent demoLifecycleState 1 [10, 11]
     (by decide) (by decide)⟩

end RouteX
